import Mathlib

/-
  Verification of the lezh1n product classification service
  (src/categories.py and src/main.py) against its specification.

  Shallow-embedding conventions:
  * The Python dicts `CATEGORIES` / `NAME_TO_ID` are embedded as association
    lists; `.lookup` plays the role of `dict.get` (keys are unique, so
    first-match lookup coincides with dict lookup).
  * Confidence scores are opaque values produced by the classifier pipeline
    and passed through unchanged by the service; they are modelled as ℚ.
  * The classifier pipeline object stored on `app.state` is modelled as an
    abstract pair of functions (single-text call / batched call), each
    receiving the `top_k` keyword argument and either returning ranked
    output or raising (modelled with `Except String`).
  * Before the lifespan startup publishes the classifier, `app.state` has no
    `classifier` attribute; the attribute is therefore an `Option`.
  * Exceptions escaping a handler are modelled with `Except`:
    `HTTPException(status, detail)` for explicit raises, and an unhandled
    Python `AttributeError` as its own constructor (FastAPI surfaces the
    latter as a generic 500 internal server error, not a 503).
  * Wall-clock timing fields (`inference_time`, `total_time`) are outside
    the embedding; no claim here depends on their values.
-/

namespace ProductCls

/-- One category record of `categories.py` (the value part of the
`CATEGORIES` dict): name, display name and description. -/
structure CategoryRec where
  name : String
  display_name : String
  description : String
deriving DecidableEq, Repr

/-- categories.py lines 6-167: the full registry, key-value pairs in dict
order. -/
def CATEGORIES : List (Nat × CategoryRec) := [
  (0, { name := "electronics", display_name := "Electronics",
        description := "Televisions, cameras, audio speakers, headphones, home theater systems, drones, wearable devices, electronic accessories, chargers, cables, and consumer electronic gadgets" }),
  (1, { name := "computers_networking", display_name := "Computers & Networking",
        description := "Desktop computers, laptops, monitors, keyboards, mice, storage drives, RAM, graphics cards, networking routers, switches, printers, and computing components" }),
  (2, { name := "mobile_phones_tablets", display_name := "Mobile Phones & Tablets",
        description := "Smartphones, feature phones, tablets, e-readers, phone cases, screen protectors, power banks, SIM cards, and mobile device accessories" }),
  (3, { name := "fashion_clothing", display_name := "Fashion & Clothing",
        description := "Apparel and garments including tops, pants, dresses, skirts, suits, jackets, outerwear, underwear, activewear, uniforms, and clothing for men women and children" }),
  (4, { name := "shoes_footwear", display_name := "Shoes & Footwear",
        description := "Sneakers, boots, sandals, heels, loafers, slippers, sports shoes, formal shoes, shoe care products, insoles, and laces for men women and children" }),
  (5, { name := "bags_luggage", display_name := "Bags & Luggage",
        description := "Backpacks, handbags, suitcases, travel bags, laptop bags, messenger bags, duffel bags, trolley cases, wallets, clutches, and packing organizers" }),
  (6, { name := "watches", display_name := "Watches",
        description := "Wristwatches, luxury watches, digital watches, smartwatches, watch bands, watch tools, and watch storage boxes" }),
  (7, { name := "jewelry", display_name := "Jewelry",
        description := "Rings, necklaces, bracelets, earrings, brooches, anklets, gemstones, gold and silver jewelry, costume jewelry, and fine jewelry pieces" }),
  (8, { name := "fashion_accessories", display_name := "Fashion Accessories",
        description := "Sunglasses, hats, caps, scarves, gloves, belts, ties, keychains, hair clips, and wearable fashion accessories not classified as clothing or jewelry" }),
  (9, { name := "beauty_personal_care", display_name := "Beauty & Personal Care",
        description := "Skincare, makeup, cosmetics, hair care, fragrances, perfumes, oral care, bath and body products, shaving tools, grooming kits, and beauty devices" }),
  (10, { name := "health_wellness", display_name := "Health & Wellness",
         description := "Vitamins, dietary supplements, medical devices, first aid kits, health monitors, massage equipment, personal protective equipment, and wellness products" }),
  (11, { name := "sports_outdoors", display_name := "Sports & Outdoors",
         description := "Gym equipment, fitness gear, camping gear, hiking equipment, bicycles, fishing rods, yoga mats, sports balls, swimming goggles, and outdoor recreation products" }),
  (12, { name := "home_furniture", display_name := "Home Furniture",
         description := "Sofas, beds, tables, chairs, wardrobes, bookshelves, desks, cabinets, mattresses, shelving units, and indoor household furniture" }),
  (13, { name := "home_decor_lighting", display_name := "Home Decor & Lighting",
         description := "Wall art, picture frames, vases, candles, mirrors, rugs, curtains, throw pillows, ceiling lights, table lamps, floor lamps, and decorative items" }),
  (14, { name := "kitchen_dining", display_name := "Kitchen & Dining",
         description := "Cookware, pots, pans, knives, cutting boards, dinnerware, glassware, utensils, food storage containers, bakeware, and kitchen gadgets" }),
  (15, { name := "bedding_bath", display_name := "Bedding & Bath",
         description := "Bed sheets, pillows, blankets, comforters, duvet covers, towels, bathrobes, shower curtains, bath mats, and bathroom accessories" }),
  (16, { name := "large_appliances", display_name := "Large Appliances",
         description := "Refrigerators, washing machines, dryers, air conditioners, dishwashers, ovens, stoves, water heaters, and large household appliances" }),
  (17, { name := "small_appliances", display_name := "Small Appliances",
         description := "Blenders, coffee makers, toasters, microwaves, electric kettles, rice cookers, vacuum cleaners, irons, air fryers, and portable household appliances" }),
  (18, { name := "grocery_food", display_name := "Grocery & Food",
         description := "Packaged food, fresh produce, frozen food, snacks, beverages, cooking ingredients, spices, condiments, dairy, meat, seafood, and pantry staples" }),
  (19, { name := "baby_maternity", display_name := "Baby & Maternity",
         description := "Diapers, baby formula, feeding bottles, pacifiers, baby clothing, strollers, car seats, cribs, baby monitors, maternity wear, and infant care essentials" }),
  (20, { name := "toys_games", display_name := "Toys & Games",
         description := "Children\x27s toys, board games, puzzles, action figures, dolls, building blocks, remote control vehicles, educational toys, stuffed animals, and play sets" }),
  (21, { name := "books_media", display_name := "Books & Media",
         description := "Physical books, novels, textbooks, comic books, manga, magazines, music CDs, vinyl records, movie DVDs, Blu-ray discs, and printed publications" }),
  (22, { name := "stationery_office_supplies", display_name := "Stationery & Office Supplies",
         description := "Pens, pencils, notebooks, paper, folders, staplers, desk organizers, calculators, whiteboards, and general office and school supplies" }),
  (23, { name := "pet_supplies", display_name := "Pet Supplies",
         description := "Pet food, treats, toys, grooming products, leashes, collars, pet beds, aquariums, cages, litter, and healthcare products for pets" }),
  (24, { name := "automotive_motorcycle", display_name := "Automotive & Motorcycle",
         description := "Car parts, motorcycle parts, tires, car electronics, dash cams, engine oil, car care products, seat covers, and vehicle maintenance tools" }),
  (25, { name := "tools_hardware", display_name := "Tools & Hardware",
         description := "Hand tools, power tools, drills, saws, screwdrivers, wrenches, fasteners, plumbing supplies, electrical supplies, and construction hardware" }),
  (26, { name := "garden_outdoor_living", display_name := "Garden & Outdoor Living",
         description := "Plants, seeds, gardening tools, pots, planters, lawn mowers, outdoor furniture, grills, barbecue accessories, and irrigation equipment" }),
  (27, { name := "musical_instruments", display_name := "Musical Instruments",
         description := "Guitars, pianos, keyboards, drums, violins, wind instruments, instrument strings, picks, amplifiers, and music recording equipment" }),
  (28, { name := "video_games_gaming", display_name := "Video Games & Gaming",
         description := "Gaming consoles, video games, gaming controllers, gaming headsets, gaming chairs, and gaming accessories designed specifically for video gaming" }),
  (29, { name := "software_digital_goods", display_name := "Software & Digital Goods",
         description := "Computer software, antivirus programs, operating systems, digital gift cards, e-books, online courses, and downloadable digital content" }),
  (30, { name := "arts_crafts", display_name := "Arts & Crafts",
         description := "Painting supplies, canvas, brushes, sewing kits, knitting yarn, scrapbooking materials, craft paper, glue guns, DIY project kits, and creative hobby materials" }),
  (31, { name := "industrial_commercial", display_name := "Industrial & Commercial",
         description := "Laboratory equipment, industrial machinery, safety gear, commercial supplies, packaging materials, janitorial products, and professional-grade tools" })
]

/-- categories.py line 170: the reverse mapping, `name -> id`, built from
`CATEGORIES` (names are unique, so dict comprehension = this map). -/
def NAME_TO_ID : List (String × Nat) :=
  CATEGORIES.map fun p => (p.2.name, p.1)

/-- categories.py lines 172-174: `NAME_TO_ID.get(name)` — `None` on miss. -/
def get_category_id (name : String) : Option Nat :=
  NAME_TO_ID.lookup name

/-- categories.py lines 176-178: `CATEGORIES.get(cat_id)` — `None` on miss. -/
def get_category_info (cat_id : Nat) : Option CategoryRec :=
  CATEGORIES.lookup cat_id

/-- categories.py lines 180-182. -/
def get_all_categories : List (Nat × CategoryRec) :=
  CATEGORIES

/-- Confidence scores are produced by the classifier pipeline and passed
through the service unchanged (never computed on); modelled as ℚ. -/
abbrev Score := ℚ

/-- main.py lines 105-120: one prediction of the response. `category_id`
is an `Int` because `-1` is the unknown-label sentinel. -/
structure Prediction where
  category_id : Int
  category_name : String
  display_name : String
  score : Score
deriving DecidableEq, Repr

/-- One raw `{label, score}` entry of the pipeline's ranked output. -/
structure RankedItem where
  label : String
  score : Score
deriving DecidableEq, Repr

/-- A pydantic validation error: the failing field and the error type. -/
structure ValidationError where
  field : String
  reason : String
deriving DecidableEq, Repr

/-- main.py lines 76-84: the validated single request. `top_k` is
`Optional[int]`, so an explicit `null` (`none` here) is a possible value. -/
structure ClassificationRequest where
  text : String
  top_k : Option Int
deriving DecidableEq, Repr

/-- main.py lines 87-102: the validated batch request. -/
structure BatchRequest where
  texts : List String
  top_k : Option Int
deriving DecidableEq, Repr

/-- main.py line 83: `text: str = Field(..., min_length=1, max_length=2000)`
— pydantic bounds on the character count of the single text. -/
def validateText (text : String) : Except ValidationError String :=
  if text.length < 1 then .error { field := "text", reason := "string_too_short" }
  else if text.length > 2000 then .error { field := "text", reason := "string_too_long" }
  else .ok text

/-- main.py line 101: `texts: List[str] = Field(..., min_length=1, max_length=100)`
— for a `List` field these pydantic bounds constrain the NUMBER OF ITEMS of
the list; the items themselves are plain `str` and are not length-checked. -/
def validateTexts (texts : List String) : Except ValidationError (List String) :=
  if texts.length < 1 then .error { field := "texts", reason := "too_short" }
  else if texts.length > 100 then .error { field := "texts", reason := "too_long" }
  else .ok texts

/-- main.py lines 84 and 102 (the identical constraint appears in both
request models): `top_k: Optional[int] = Field(5, ge=1, le=32)`.
The outer `Option` distinguishes an omitted field (`none`, which takes the
default `5`) from a provided one; a provided explicit `null` (`some none`)
is accepted by `Optional[int]`, and a provided integer must lie in
`[1, 32]`. -/
def validateTopK : Option (Option Int) → Except ValidationError (Option Int)
  | none => .ok (some 5)
  | some none => .ok none
  | some (some k) =>
    if k < 1 then .error { field := "top_k", reason := "greater_than_equal" }
    else if k > 32 then .error { field := "top_k", reason := "less_than_equal" }
    else .ok (some k)

/-- Pydantic validation of a `ClassificationRequest` body (main.py
lines 76-84): both fields must pass their constraints. -/
def parseClassificationRequest (text : String) (top_k : Option (Option Int)) :
    Except ValidationError ClassificationRequest :=
  match validateText text, validateTopK top_k with
  | .error e, _ => .error e
  | .ok _, .error e => .error e
  | .ok t, .ok k => .ok { text := t, top_k := k }

/-- Pydantic validation of a `BatchRequest` body (main.py lines 87-102). -/
def parseBatchRequest (texts : List String) (top_k : Option (Option Int)) :
    Except ValidationError BatchRequest :=
  match validateTexts texts, validateTopK top_k with
  | .error e, _ => .error e
  | .ok _, .error e => .error e
  | .ok t, .ok k => .ok { texts := t, top_k := k }

/-- The classifier pipeline object published on `app.state` (main.py
lines 37-42): callable with a single text or with a list of texts, in both
cases receiving a `top_k` keyword argument (`none` = `None` = full
ranking), and either returning ranked output or raising. -/
structure ClassifierCap where
  callSingle : String → Option Int → Except String (List RankedItem)
  callBatch : List String → Option Int → Except String (List (List RankedItem))

/-- main.py line 41: the pipeline is constructed with `top_k=None`, i.e.
its construction-time default is the full ranking. -/
def pipeline_construction_top_k : Option Int := none

/-- `app.state`: before lifespan startup publishes the pipeline the
`classifier` attribute does not exist (`none`). -/
structure AppState where
  classifier : Option ClassifierCap

/-- Errors escaping a handler: an explicit `HTTPException(status, detail)`,
or an unhandled Python `AttributeError` on a missing `app.state` attribute
(which FastAPI surfaces as a generic 500 internal server error). -/
inductive ApiError where
  | httpException (status : Nat) (detail : String)
  | attributeError (attr : String)
deriving DecidableEq, Repr

/-- main.py lines 123-127 (without the wall-clock `inference_time`). -/
structure ClassificationResponse where
  text : String
  predictions : List Prediction
deriving DecidableEq, Repr

/-- main.py lines 129-132 (without the wall-clock `total_time`). -/
structure BatchResponse where
  results : List ClassificationResponse
  count : Nat
deriving DecidableEq, Repr

/-- Python list slicing `l[:k]` with an optional bound: `l[:None]` is the
whole list, a negative bound counts from the end. -/
def pySliceTo {α : Type} (l : List α) (k : Option Int) : List α :=
  match k with
  | none => l
  | some k => if 0 ≤ k then l.take k.toNat else l.take (l.length - (-k).toNat)

/-- main.py lines 146-163: map a raw pipeline label + score to a
`Prediction`. On a registry miss the sentinel is returned (and a warning is
logged, which the embedding drops). In the known-label branch the Python
subscripts `info["display_name"]` without a `None` check; a `None` there
would raise, which is modelled by `none`. -/
def _to_prediction (label : String) (score : Score) : Option Prediction :=
  match get_category_id label with
  | none =>
    some { category_id := -1, category_name := label,
           display_name := "Unknown", score := score }
  | some category_id =>
    match get_category_info category_id with
    | none => none
    | some info =>
      some { category_id := Int.ofNat category_id, category_name := label,
             display_name := info.display_name, score := score }

/-- The list comprehension of main.py line 200 / lines 222-225:
`[_to_prediction(p["label"], p["score"]) for p in ...]`; an exception from
any element aborts the whole comprehension (first `none` wins). -/
def mapPredictions : List RankedItem → Option (List Prediction)
  | [] => some []
  | p :: rest =>
    match _to_prediction p.label p.score, mapPredictions rest with
    | some pred, some preds => some (pred :: preds)
    | _, _ => none

/-- The result comprehension of main.py lines 219-229: one
`ClassificationResponse` per `(text, raw)` pair of `zip(body.texts, all_raw)`,
slicing each raw ranking to `top_k` before mapping. -/
def mapBatchResults (k : Option Int) :
    List (String × List RankedItem) → Option (List ClassificationResponse)
  | [] => some []
  | (text, raw) :: rest =>
    match mapPredictions (pySliceTo raw k), mapBatchResults k rest with
    | some preds, some rs => some ({ text := text, predictions := preds } :: rs)
    | _, _ => none

/-- main.py lines 181-190: the `/health` handler. It guards readiness with
`hasattr(req.app.state, "classifier")` and answers 503 when the model is
not loaded. -/
def health (state : AppState) : Except ApiError (String × Nat) :=
  match state.classifier with
  | none => .error (.httpException 503 "Model not loaded")
  | some _ => .ok ("healthy", CATEGORIES.length)

/-- main.py lines 193-208: the `/classify` handler on an already-validated
body. Line 196 reads `req.app.state.classifier` with no `hasattr` guard and
outside the `try` block, so a missing attribute raises `AttributeError`.
Line 199 calls the pipeline as `classifier(body.text, top_k=body.top_k)`;
a pipeline exception (or one from `_to_prediction`) is caught inside the
`try` and re-raised as `HTTPException(500, ...)`. Line 200 additionally
truncates the returned ranking locally: `raw[: body.top_k]`. -/
def classify (state : AppState) (body : ClassificationRequest) :
    Except ApiError ClassificationResponse :=
  match state.classifier with
  | none => .error (.attributeError "classifier")
  | some classifier =>
    match classifier.callSingle body.text body.top_k with
    | .error exc => .error (.httpException 500 ("Classification failed: " ++ exc))
    | .ok raw =>
      match mapPredictions (pySliceTo raw body.top_k) with
      | none => .error (.httpException 500 "Classification failed: TypeError")
      | some predictions => .ok { text := body.text, predictions := predictions }

/-- main.py lines 211-237: the `/classify/batch` handler on an
already-validated body. Line 214 reads the classifier attribute unguarded,
as in `classify`. Line 218 calls the pipeline once with all texts and
`top_k=body.top_k`; line 228 zips `body.texts` with the returned rankings
(Python `zip` truncates to the shorter sequence); line 236 sets
`count = len(body.texts)`. -/
def classify_batch (state : AppState) (body : BatchRequest) :
    Except ApiError BatchResponse :=
  match state.classifier with
  | none => .error (.attributeError "classifier")
  | some classifier =>
    match classifier.callBatch body.texts body.top_k with
    | .error exc => .error (.httpException 500 ("Batch classification failed: " ++ exc))
    | .ok all_raw =>
      match mapBatchResults body.top_k (body.texts.zip all_raw) with
      | none => .error (.httpException 500 "Batch classification failed: TypeError")
      | some results => .ok { results := results, count := body.texts.length }

/-- The property "this ranked score list is sorted by non-increasing
score". -/
def scoresDesc (l : List Score) : Prop :=
  l.Pairwise fun a b => b ≤ a

/-- A full (32-entry) ranking with equal scores, used to instantiate
capability behaviours at concrete inputs. -/
def raw32 : List RankedItem :=
  List.replicate 32 { label := "electronics", score := 1 }

/-- A concrete capability whose single-text call always returns the full
ranking `raw32` and whose batch call returns one empty ranking per input. -/
def cap32 : ClassifierCap where
  callSingle := fun _ _ => .ok raw32
  callBatch := fun texts _ => .ok (texts.map fun _ => [])

/-- A probe capability that records, in the label of the single item it
returns, whether its `top_k` keyword argument was `None` (full ranking
requested) or an explicit bound (pre-truncation requested). -/
def probeCap : ClassifierCap where
  callSingle := fun _ k =>
    .ok [{ label := match k with
                    | none => "called_with_full_ranking"
                    | some _ => "called_with_top_k_bound",
           score := 1 }]
  callBatch := fun texts _ => .ok (texts.map fun _ => [])

/-
  Helper lemmas (shared across the claim theorems below).
-/

theorem lookup_mem {α β : Type} [BEq α] [LawfulBEq α] {l : List (α × β)} {a : α} {b : β}
    (h : l.lookup a = some b) : (a, b) ∈ l := by
  induction l with
  | nil => simp [List.lookup] at h
  | cons hd tl ih =>
    obtain ⟨k, v⟩ := hd
    rw [List.lookup_cons] at h
    by_cases hk : a == k
    · simp [hk] at h
      subst h
      simp [List.mem_cons]
      exact Or.inl (eq_of_beq hk)
    · simp [hk] at h
      exact List.mem_cons_of_mem _ (ih h)

/-- Every id stored in `NAME_TO_ID` is a key of `CATEGORIES`. -/
theorem name_to_id_sub : ∀ q ∈ NAME_TO_ID, (get_category_info q.2).isSome := by decide

/-- `_to_prediction` always succeeds, preserving the score and echoing the
label as `category_name`. -/
theorem to_prediction_exists (label : String) (score : Score) :
    ∃ p, _to_prediction label score = some p ∧ p.score = score ∧ p.category_name = label := by
  cases h : get_category_id label with
  | none =>
    have heq : _to_prediction label score =
        some { category_id := -1, category_name := label,
               display_name := "Unknown", score := score } := by
      simp only [_to_prediction, h]
    exact ⟨_, heq, rfl, rfl⟩
  | some cid =>
    have hinfo : (get_category_info cid).isSome = true :=
      name_to_id_sub (label, cid) (lookup_mem h)
    obtain ⟨info, hinfo⟩ := Option.isSome_iff_exists.mp hinfo
    have heq : _to_prediction label score =
        some { category_id := Int.ofNat cid, category_name := label,
               display_name := info.display_name, score := score } := by
      simp only [_to_prediction, h, hinfo]
    exact ⟨_, heq, rfl, rfl⟩

/-- The per-item prediction comprehension always succeeds and is a
score-preserving pointwise map. -/
theorem mapPredictions_spec (l : List RankedItem) :
    ∃ ps, mapPredictions l = some ps ∧ ps.map Prediction.score = l.map RankedItem.score := by
  induction l with
  | nil => exact ⟨[], rfl, rfl⟩
  | cons p rest ih =>
    obtain ⟨pred, hpred, hscore, _⟩ := to_prediction_exists p.label p.score
    obtain ⟨ps, hps, hmap⟩ := ih
    refine ⟨pred :: ps, ?_, ?_⟩
    · rw [mapPredictions, hpred, hps]
    · simp [hscore, hmap]

/-- The batch result comprehension always succeeds and echoes the zipped
texts in order. -/
theorem mapBatchResults_spec (k : Option Int) (pairs : List (String × List RankedItem)) :
    ∃ rs, mapBatchResults k pairs = some rs ∧
      rs.map ClassificationResponse.text = pairs.map Prod.fst := by
  induction pairs with
  | nil => exact ⟨[], rfl, rfl⟩
  | cons pr rest ih =>
    obtain ⟨text, raw⟩ := pr
    obtain ⟨preds, hpreds, _⟩ := mapPredictions_spec (pySliceTo raw k)
    obtain ⟨rs, hrs, hmap⟩ := ih
    refine ⟨{ text := text, predictions := preds } :: rs, ?_, ?_⟩
    · rw [mapBatchResults, hpreds, hrs]
    · simp [hmap]

/-- The prediction comprehension is length-preserving. -/
theorem mapPredictions_length {l : List RankedItem} {ps : List Prediction}
    (h : mapPredictions l = some ps) : ps.length = l.length := by
  obtain ⟨ps', hps', hmap⟩ := mapPredictions_spec l
  have heq : ps = ps' := Option.some.inj (h.symm.trans hps')
  subst heq
  have hl := congrArg List.length hmap
  simpa using hl

/-- With a non-negative slice bound `k`, every result produced by the batch
comprehension carries at most `k.toNat` predictions. -/
theorem mapBatchResults_preds_le (k : Int) (hk : 0 ≤ k) :
    ∀ (pairs : List (String × List RankedItem)) (rs : List ClassificationResponse),
      mapBatchResults (some k) pairs = some rs →
      ∀ r ∈ rs, r.predictions.length ≤ k.toNat := by
  intro pairs
  induction pairs with
  | nil =>
    intro rs h r hr
    have heq : ([] : List ClassificationResponse) = rs := Option.some.inj h
    subst heq
    simp at hr
  | cons pr rest ih =>
    intro rs h r hr
    obtain ⟨text, raw⟩ := pr
    rw [mapBatchResults] at h
    cases hp : mapPredictions (pySliceTo raw (some k)) with
    | none => rw [hp] at h; simp at h
    | some preds =>
      cases hb : mapBatchResults (some k) rest with
      | none => rw [hp, hb] at h; simp at h
      | some rs' =>
        rw [hp, hb] at h
        have heq : ({ text := text, predictions := preds } : ClassificationResponse) :: rs' = rs :=
          Option.some.inj h
        subst heq
        rcases List.mem_cons.mp hr with hhead | htail
        · subst hhead
          have h1 := mapPredictions_length hp
          have h2 : (pySliceTo raw (some k)).length ≤ k.toNat := by
            simp only [pySliceTo]
            rw [if_pos hk, List.length_take]
            omega
          show preds.length ≤ k.toNat
          omega
        · exact ih rs' hb r htail

/-
  Claim theorems.
-/

/-- C1, counterexample: calling `/classify` while the classifier is not
published does NOT yield the 503 service-unavailable error — the unguarded
attribute read at main.py line 196 raises an `AttributeError` (surfaced by
the framework as a generic 500 internal error), which is a different error
kind from the 503 that `/health` returns in the same state. -/
theorem classify_unready_crash_cex :
    classify { classifier := none } { text := "hello", top_k := some 5 } =
      .error (.attributeError "classifier") ∧
    ApiError.attributeError "classifier" ≠ ApiError.httpException 503 "Model not loaded" :=
  ⟨rfl, by decide⟩

/-- C1, amended: for every request, calling `/classify` while the
classification resource is not published raises an unhandled
`AttributeError` on `app.state.classifier` (a generic 500 internal error),
not a 503 service-unavailable error; only `/health` guards readiness and
answers 503 in that state. -/
theorem classify_unready_attribute_error (body : ClassificationRequest) :
    classify { classifier := none } body = .error (.attributeError "classifier") ∧
    health { classifier := none } = .error (.httpException 503 "Model not loaded") :=
  ⟨rfl, rfl⟩

theorem classify_unready_attribute_error_witness :
    classify { classifier := none } { text := "hello", top_k := none } =
      .error (.attributeError "classifier") ∧
    health { classifier := none } = .error (.httpException 503 "Model not loaded") :=
  classify_unready_attribute_error { text := "hello", top_k := none }

/-- C2, counterexample: the single-text length rule rejects the empty
string and a 2001-character string, yet a batch containing exactly those
two items passes `BatchRequest` validation unchanged and is processed by
the classification resource (the batched call succeeds). The pydantic
`min_length`/`max_length` on `texts` bound the number of items, not the
items. -/
theorem batch_item_unvalidated_cex :
    validateText "" = .error { field := "text", reason := "string_too_short" } ∧
    validateText (String.mk (List.replicate 2001 'a')) =
      .error { field := "text", reason := "string_too_long" } ∧
    parseBatchRequest ["", String.mk (List.replicate 2001 'a')] none =
      .ok { texts := ["", String.mk (List.replicate 2001 'a')], top_k := some 5 } ∧
    classify_batch { classifier := some cap32 }
        { texts := ["", String.mk (List.replicate 2001 'a')], top_k := some 5 } =
      .ok { results := [{ text := "", predictions := [] },
                       { text := String.mk (List.replicate 2001 'a'), predictions := [] }],
            count := 2 } := by
  refine ⟨rfl, ?_, rfl, rfl⟩
  have hlen : (String.mk (List.replicate 2001 'a')).length = 2001 := by
    unfold String.length
    exact List.length_replicate 2001 'a'
  unfold validateText
  rw [hlen, if_neg (by omega), if_pos (by omega)]

/-- C2, amended: batch validation constrains only the number of items
(1..100) and `top_k`; the items themselves are never length-checked, so any
batch of 1..100 strings — including empty or over-2000-character ones —
passes validation and reaches the classification resource. -/
theorem batch_validation_list_bounds_only (texts : List String)
    (h1 : 1 ≤ texts.length) (h2 : texts.length ≤ 100) :
    parseBatchRequest texts none = .ok { texts := texts, top_k := some 5 } := by
  have hvts : validateTexts texts = .ok texts := by
    unfold validateTexts
    rw [if_neg (by omega), if_neg (by omega)]
  unfold parseBatchRequest
  rw [hvts]
  rfl

theorem batch_validation_list_bounds_only_witness :
    1 ≤ ([""] : List String).length ∧ ([""] : List String).length ≤ 100 ∧
    parseBatchRequest [""] none = .ok { texts := [""], top_k := some 5 } :=
  ⟨by decide, by decide, batch_validation_list_bounds_only [""] (by decide) (by decide)⟩

/-- C3: for every valid request (non-empty text of at most 2000 characters,
`top_k` in [1, 32]) against a Ready resource whose classifier returns a
full ranking (32 entries, sorted by non-increasing score), the request
validates and `/classify` succeeds with exactly `top_k` predictions sorted
by non-increasing score. -/
theorem classify_returns_top_k_sorted (cap : ClassifierCap) (text : String) (k : Int)
    (raw : List RankedItem)
    (htext₁ : 1 ≤ text.length) (htext₂ : text.length ≤ 2000)
    (hk₁ : 1 ≤ k) (hk₂ : k ≤ 32)
    (hcall : cap.callSingle text (some k) = .ok raw)
    (hfull : raw.length = 32)
    (hsorted : scoresDesc (raw.map RankedItem.score)) :
    parseClassificationRequest text (some (some k)) = .ok { text := text, top_k := some k } ∧
    ∃ resp, classify { classifier := some cap } { text := text, top_k := some k } = .ok resp ∧
      resp.predictions.length = k.toNat ∧
      scoresDesc (resp.predictions.map Prediction.score) := by
  have hvt : validateText text = .ok text := by
    unfold validateText
    rw [if_neg (by omega), if_neg (by omega)]
  have hvk : validateTopK (some (some k)) = .ok (some k) := by
    simp only [validateTopK]
    rw [if_neg (by omega), if_neg (by omega)]
  have hslice : pySliceTo raw (some k) = raw.take k.toNat := by
    simp only [pySliceTo]
    rw [if_pos (by omega)]
  obtain ⟨ps, hps, hscores⟩ := mapPredictions_spec (raw.take k.toNat)
  refine ⟨?_, { text := text, predictions := ps }, ?_, ?_, ?_⟩
  · unfold parseClassificationRequest
    rw [hvt, hvk]
  · simp only [classify, hcall, hslice, hps]
  · have hlen : ps.length = (raw.take k.toNat).length := by
      have h := congrArg List.length hscores
      simpa using h
    rw [hlen, List.length_take]
    omega
  · unfold scoresDesc
    rw [hscores, List.map_take]
    exact (List.Pairwise.sublist (List.take_sublist _ _) hsorted)

theorem classify_returns_top_k_sorted_witness :
    1 ≤ ("Sony headphones" : String).length ∧ ("Sony headphones" : String).length ≤ 2000 ∧
    1 ≤ (3 : Int) ∧ (3 : Int) ≤ 32 ∧
    cap32.callSingle "Sony headphones" (some 3) = .ok raw32 ∧
    raw32.length = 32 ∧ scoresDesc (raw32.map RankedItem.score) ∧
    (parseClassificationRequest "Sony headphones" (some (some 3)) =
      .ok { text := "Sony headphones", top_k := some 3 } ∧
     ∃ resp, classify { classifier := some cap32 } { text := "Sony headphones", top_k := some 3 } =
         .ok resp ∧
       resp.predictions.length = (3 : Int).toNat ∧
       scoresDesc (resp.predictions.map Prediction.score)) :=
  ⟨by decide, by decide, by decide, by decide, rfl, by decide, by unfold scoresDesc; decide,
   classify_returns_top_k_sorted cap32 "Sony headphones" 3 raw32 (by decide) (by decide)
     (by decide) (by decide) rfl (by decide) (by unfold scoresDesc; decide)⟩

/-- C4: for every batch request against a Ready resource whose classifier
returns one ranking per input, `/classify/batch` succeeds with one result
per text, in input order (`results.map text = texts`), and with
`count = len(texts)`. -/
theorem classify_batch_preserves_order (cap : ClassifierCap) (texts : List String)
    (k : Option Int) (all_raw : List (List RankedItem))
    (hcall : cap.callBatch texts k = .ok all_raw)
    (hlen : all_raw.length = texts.length) :
    ∃ resp, classify_batch { classifier := some cap } { texts := texts, top_k := k } = .ok resp ∧
      resp.results.length = texts.length ∧
      resp.results.map ClassificationResponse.text = texts ∧
      resp.count = texts.length := by
  obtain ⟨rs, hrs, hmap⟩ := mapBatchResults_spec k (texts.zip all_raw)
  have hfst : (texts.zip all_raw).map Prod.fst = texts :=
    List.map_fst_zip _ _ (by omega)
  refine ⟨{ results := rs, count := texts.length }, ?_, ?_, ?_, rfl⟩
  · simp only [classify_batch, hcall, hrs]
  · have h := congrArg List.length (hmap.trans hfst)
    simpa using h
  · rw [hmap, hfst]

theorem classify_batch_preserves_order_witness :
    cap32.callBatch ["iPhone 15", "Nike shoes"] (some 1) = .ok [[], []] ∧
    ([([] : List RankedItem), []] : List (List RankedItem)).length =
      (["iPhone 15", "Nike shoes"] : List String).length ∧
    ∃ resp, classify_batch { classifier := some cap32 }
        { texts := ["iPhone 15", "Nike shoes"], top_k := some 1 } = .ok resp ∧
      resp.results.length = (["iPhone 15", "Nike shoes"] : List String).length ∧
      resp.results.map ClassificationResponse.text = ["iPhone 15", "Nike shoes"] ∧
      resp.count = (["iPhone 15", "Nike shoes"] : List String).length :=
  ⟨rfl, by decide,
   classify_batch_preserves_order cap32 ["iPhone 15", "Nike shoes"] (some 1) [[], []]
     rfl (by decide)⟩

/-- C5, counterexample: `/classify` DOES ask the capability to pre-truncate.
A probe capability that reports its received `top_k` keyword argument in a
label observes an explicit bound (`some 3`), not `None`/full ranking, when
the request carries `top_k = 3`: main.py line 199 passes
`top_k=body.top_k` in the call, overriding the construction-time
`top_k=None` of the pipeline. -/
theorem classify_pretruncates_cex :
    classify { classifier := some probeCap } { text := "x", top_k := some 3 } =
      .ok { text := "x",
            predictions := [{ category_id := -1,
                              category_name := "called_with_top_k_bound",
                              display_name := "Unknown", score := 1 }] } := by
  rfl

/-- C5, amended: the pipeline is constructed with `top_k=None` (full
ranking as its default), but every single-item call overrides that by
passing the request's `top_k` as the call's keyword argument — asking the
capability to pre-truncate — and the handler additionally truncates the
returned ranking locally to the first `top_k` entries. -/
theorem classify_overrides_pipeline_top_k (cap : ClassifierCap)
    (body : ClassificationRequest) (raw : List RankedItem)
    (hcall : cap.callSingle body.text body.top_k = .ok raw) :
    pipeline_construction_top_k = none ∧
    ∃ ps, mapPredictions (pySliceTo raw body.top_k) = some ps ∧
      classify { classifier := some cap } body = .ok { text := body.text, predictions := ps } := by
  obtain ⟨ps, hps, _⟩ := mapPredictions_spec (pySliceTo raw body.top_k)
  exact ⟨rfl, ps, hps, by simp only [classify, hcall, hps]⟩

theorem classify_overrides_pipeline_top_k_witness :
    cap32.callSingle "x" (some 3) = .ok raw32 ∧
    (pipeline_construction_top_k = none ∧
     ∃ ps, mapPredictions (pySliceTo raw32 (some 3)) = some ps ∧
       classify { classifier := some cap32 } { text := "x", top_k := some 3 } =
         .ok { text := "x", predictions := ps }) :=
  ⟨rfl, classify_overrides_pipeline_top_k cap32 { text := "x", top_k := some 3 } raw32 rfl⟩

/-- C6: a (label, score) pair whose label is absent from the registry is
mapped to exactly the sentinel
`{category_id = -1, category_name = label, display_name = "Unknown", score}`,
and any `/classify` call whose ranking contains such a label (among any
other entries) still succeeds — the unknown label never aborts the
remaining predictions. -/
theorem unknown_label_sentinel (label : String) (score : Score)
    (h : get_category_id label = none) :
    _to_prediction label score =
      some { category_id := -1, category_name := label,
             display_name := "Unknown", score := score } ∧
    ∀ (cap : ClassifierCap) (text : String) (k : Option Int) (pre post : List RankedItem),
      cap.callSingle text k = .ok (pre ++ { label := label, score := score } :: post) →
      ∃ resp, classify { classifier := some cap } { text := text, top_k := k } = .ok resp := by
  refine ⟨by simp only [_to_prediction, h], ?_⟩
  intro cap text k pre post hcall
  obtain ⟨ps, hps, _⟩ :=
    mapPredictions_spec (pySliceTo (pre ++ { label := label, score := score } :: post) k)
  exact ⟨{ text := text, predictions := ps }, by simp only [classify, hcall, hps]⟩

theorem unknown_label_sentinel_witness :
    get_category_id "mystery_label" = none ∧
    (_to_prediction "mystery_label" 1 =
      some { category_id := -1, category_name := "mystery_label",
             display_name := "Unknown", score := 1 } ∧
     ∀ (cap : ClassifierCap) (text : String) (k : Option Int) (pre post : List RankedItem),
       cap.callSingle text k = .ok (pre ++ { label := "mystery_label", score := 1 } :: post) →
       ∃ resp, classify { classifier := some cap } { text := text, top_k := k } = .ok resp) :=
  ⟨by decide, unknown_label_sentinel "mystery_label" 1 (by decide)⟩

set_option maxRecDepth 8000 in
/-- C7: registry round trip — for every entry of `CATEGORIES`, looking up
its id yields its record and looking up that record's name yields its id
back; and for every entry of `NAME_TO_ID`, looking up the name yields the
id and the id resolves to a record carrying exactly that name. -/
theorem registry_round_trip :
    (∀ p ∈ CATEGORIES, get_category_info p.1 = some p.2 ∧ get_category_id p.2.name = some p.1) ∧
    (∀ q ∈ NAME_TO_ID, get_category_id q.1 = some q.2 ∧
      ∃ info, get_category_info q.2 = some info ∧ info.name = q.1) := by decide

set_option maxRecDepth 8000 in
theorem registry_round_trip_witness :
    (((0 : Nat),
      ({ name := "electronics",
         display_name := "Electronics",
         description := "Televisions, cameras, audio speakers, headphones, home theater systems, drones, wearable devices, electronic accessories, chargers, cables, and consumer electronic gadgets" } : CategoryRec))
        ∈ CATEGORIES ∧
     get_category_info 0 = some
       { name := "electronics",
         display_name := "Electronics",
         description := "Televisions, cameras, audio speakers, headphones, home theater systems, drones, wearable devices, electronic accessories, chargers, cables, and consumer electronic gadgets" } ∧
     get_category_id "electronics" = some 0) ∧
    (("electronics", 0) ∈ NAME_TO_ID ∧
     get_category_id "electronics" = some 0 ∧
     ∃ info, get_category_info 0 = some info ∧ info.name = "electronics") := by
  have h1 := registry_round_trip.1
    ((0 : Nat),
      ({ name := "electronics",
         display_name := "Electronics",
         description := "Televisions, cameras, audio speakers, headphones, home theater systems, drones, wearable devices, electronic accessories, chargers, cables, and consumer electronic gadgets" } : CategoryRec))
    (by decide)
  have h2 := registry_round_trip.2 ("electronics", 0) (by decide)
  exact ⟨⟨by decide, h1.1, h1.2⟩, ⟨by decide, h2.1, h2.2⟩⟩

/-- C8: `top_k = 0` and `top_k = 33` are both rejected with a validation
error (the out-of-range value is never clamped into range), while
`top_k = 32` is accepted and — against any Ready resource — `/classify`
succeeds with at most 32 predictions. -/
theorem top_k_boundary (cap : ClassifierCap) (text : String) (raw : List RankedItem)
    (hcall : cap.callSingle text (some 32) = .ok raw) :
    validateTopK (some (some 0)) = .error { field := "top_k", reason := "greater_than_equal" } ∧
    validateTopK (some (some 33)) = .error { field := "top_k", reason := "less_than_equal" } ∧
    validateTopK (some (some 32)) = .ok (some 32) ∧
    ∃ resp, classify { classifier := some cap } { text := text, top_k := some 32 } = .ok resp ∧
      resp.predictions.length ≤ 32 := by
  refine ⟨rfl, rfl, rfl, ?_⟩
  obtain ⟨ps, hps, hscores⟩ := mapPredictions_spec (pySliceTo raw (some 32))
  refine ⟨{ text := text, predictions := ps }, by simp only [classify, hcall, hps], ?_⟩
  have hlen : ps.length = (pySliceTo raw (some 32)).length := by
    have h := congrArg List.length hscores
    simpa using h
  have hb : (pySliceTo raw (some 32)).length ≤ 32 := by
    simp only [pySliceTo]
    rw [if_pos (by omega)]
    simp [List.length_take]
  show ps.length ≤ 32
  omega

theorem top_k_boundary_witness :
    cap32.callSingle "x" (some 32) = .ok raw32 ∧
    (validateTopK (some (some 0)) = .error { field := "top_k", reason := "greater_than_equal" } ∧
     validateTopK (some (some 33)) = .error { field := "top_k", reason := "less_than_equal" } ∧
     validateTopK (some (some 32)) = .ok (some 32) ∧
     ∃ resp, classify { classifier := some cap32 } { text := "x", top_k := some 32 } = .ok resp ∧
       resp.predictions.length ≤ 32) :=
  ⟨rfl, top_k_boundary cap32 "x" raw32 rfl⟩

/-- C9: `_to_prediction` is total — it never fails for any label and score,
because the values of `NAME_TO_ID` are exactly the keys of `CATEGORIES`,
so the known-label branch's record access always succeeds. -/
theorem to_prediction_total (label : String) (score : Score) :
    (_to_prediction label score).isSome = true ∧
    NAME_TO_ID.map Prod.snd = CATEGORIES.map Prod.fst := by
  obtain ⟨p, hp, _⟩ := to_prediction_exists label score
  exact ⟨by rw [hp]; rfl, by decide⟩

theorem to_prediction_total_witness :
    (_to_prediction "electronics" 1).isSome = true ∧
    NAME_TO_ID.map Prod.snd = CATEGORIES.map Prod.fst :=
  to_prediction_total "electronics" 1

/-- C10: a request (single or batch) that omits `top_k` entirely is
accepted, `top_k` defaults to 5, and both `/classify` and each per-text
result of `/classify/batch` then contain at most 5 predictions rather than
a full ranking. -/
theorem top_k_default_five (text : String) (texts : List String)
    (h1 : 1 ≤ text.length) (h2 : text.length ≤ 2000)
    (h3 : 1 ≤ texts.length) (h4 : texts.length ≤ 100) :
    parseClassificationRequest text none = .ok { text := text, top_k := some 5 } ∧
    parseBatchRequest texts none = .ok { texts := texts, top_k := some 5 } ∧
    (∀ (cap : ClassifierCap) (raw : List RankedItem),
      cap.callSingle text (some 5) = .ok raw →
      ∃ resp, classify { classifier := some cap } { text := text, top_k := some 5 } = .ok resp ∧
        resp.predictions.length ≤ 5) ∧
    (∀ (cap : ClassifierCap) (all_raw : List (List RankedItem)),
      cap.callBatch texts (some 5) = .ok all_raw →
      ∃ resp, classify_batch { classifier := some cap } { texts := texts, top_k := some 5 } =
          .ok resp ∧
        ∀ r ∈ resp.results, r.predictions.length ≤ 5) := by
  have hvt : validateText text = .ok text := by
    unfold validateText
    rw [if_neg (by omega), if_neg (by omega)]
  have hvts : validateTexts texts = .ok texts := by
    unfold validateTexts
    rw [if_neg (by omega), if_neg (by omega)]
  refine ⟨?_, ?_, ?_, ?_⟩
  · unfold parseClassificationRequest
    rw [hvt]
    rfl
  · unfold parseBatchRequest
    rw [hvts]
    rfl
  · intro cap raw hcall
    obtain ⟨ps, hps, hscores⟩ := mapPredictions_spec (pySliceTo raw (some 5))
    refine ⟨{ text := text, predictions := ps }, by simp only [classify, hcall, hps], ?_⟩
    have hlen : ps.length = (pySliceTo raw (some 5)).length := by
      have h := congrArg List.length hscores
      simpa using h
    have hb : (pySliceTo raw (some 5)).length ≤ 5 := by
      simp only [pySliceTo]
      rw [if_pos (by omega)]
      simp [List.length_take]
    show ps.length ≤ 5
    omega
  · intro cap all_raw hcall
    obtain ⟨rs, hrs, _⟩ := mapBatchResults_spec (some 5) (texts.zip all_raw)
    refine ⟨{ results := rs, count := texts.length },
      by simp only [classify_batch, hcall, hrs], ?_⟩
    intro r hr
    have hbnd := mapBatchResults_preds_le 5 (by omega) (texts.zip all_raw) rs hrs r hr
    omega

theorem top_k_default_five_witness :
    1 ≤ ("Samsung TV" : String).length ∧ ("Samsung TV" : String).length ≤ 2000 ∧
    1 ≤ (["Nike shoes"] : List String).length ∧ (["Nike shoes"] : List String).length ≤ 100 ∧
    (parseClassificationRequest "Samsung TV" none = .ok { text := "Samsung TV", top_k := some 5 } ∧
     parseBatchRequest ["Nike shoes"] none = .ok { texts := ["Nike shoes"], top_k := some 5 } ∧
     (∀ (cap : ClassifierCap) (raw : List RankedItem),
       cap.callSingle "Samsung TV" (some 5) = .ok raw →
       ∃ resp, classify { classifier := some cap } { text := "Samsung TV", top_k := some 5 } =
           .ok resp ∧
         resp.predictions.length ≤ 5) ∧
     (∀ (cap : ClassifierCap) (all_raw : List (List RankedItem)),
       cap.callBatch ["Nike shoes"] (some 5) = .ok all_raw →
       ∃ resp, classify_batch { classifier := some cap }
           { texts := ["Nike shoes"], top_k := some 5 } = .ok resp ∧
         ∀ r ∈ resp.results, r.predictions.length ≤ 5)) :=
  ⟨by decide, by decide, by decide, by decide,
   top_k_default_five "Samsung TV" ["Nike shoes"] (by decide) (by decide) (by decide) (by decide)⟩

end ProductCls
